import Mathlib

set_option autoImplicit false

/-!
A shallow embedding of `src/lib/amqp.js` from node-amqp-wrapper.

The JavaScript module exports a constructor that validates its configuration
and returns an object with four methods: `connect`, `publishToQueue`,
`publish` and `consume`.  Each method is translated below into an executable
Lean function over explicit data: callback-passing style becomes sequential
result passing, thrown exceptions become `Except` errors or a dedicated
outcome constructor, and the external transport (amqplib) is an oracle
supplying the completion result of each asynchronous step.
-/

namespace AmqpWrapper

/-- A JavaScript error value, identified by its message. -/
structure JsError where
  message : String
  deriving DecidableEq, Repr

/-- A JavaScript value as produced by JSON.parse of a payload string. -/
inductive JsValue where
  | null
  | bool (b : Bool)
  | num (n : Int)
  | str (s : String)
  | arr (elems : List JsValue)
  | obj (fields : List (String × JsValue))

/-- A publish target from `config.queues.publish`: a {name, routingKey} record. -/
structure PublishTarget where
  name : String
  routingKey : String
  deriving DecidableEq, Repr

/-- The consume target from `config.queues.consume`: a queue name plus binding keys. -/
structure ConsumeTarget where
  name : String
  bindingKeys : List String
  deriving DecidableEq, Repr

/-- The `queues` section of the configuration; either entry may be absent. -/
structure QueuesConfig where
  publish : Option (List PublishTarget)
  consume : Option ConsumeTarget
  deriving DecidableEq, Repr

/-- The configuration object handed to the constructor.  Fields that may be
missing in JavaScript (`undefined`) are `Option`s here. -/
structure Config where
  url : Option String
  exchange : Option String
  prefetch : Option Nat
  queues : Option QueuesConfig
  deriving DecidableEq, Repr

/-- JavaScript truthiness of an optional string field: `undefined` and the
empty string are falsy, every other string is truthy. -/
def truthyStr : Option String → Bool
  | none => false
  | some s => !s.isEmpty

/-- The defaulting `config.prefetch = config.prefetch || 10` (amqp.js line
17): an absent prefetch, and also a prefetch of 0 (falsy in JavaScript),
become 10. -/
def defaultPrefetch : Option Nat → Nat
  | none => 10
  | some p => if p = 0 then 10 else p

/-- The state captured by the returned wrapper object after the constructor
ran: a configuration whose `url` and `exchange` are known truthy strings and
whose prefetch has been defaulted. -/
structure Wrapper where
  url : String
  exchange : String
  prefetch : Nat
  queues : Option QueuesConfig
  deriving DecidableEq, Repr

/-- The constructor `module.exports = function(config)` (amqp.js lines
10-17): a missing config, or one whose `url` or `exchange` is falsy, throws
`Error('amqp-wrapper: Invalid config')` synchronously; otherwise the
prefetch default is applied and the wrapper object is returned.  The
constructor body performs no transport operation at all, which the type
reflects: it either throws or yields the captured configuration. -/
def mkWrapper : Option Config → Except JsError Wrapper
  | none => .error ⟨"amqp-wrapper: Invalid config"⟩
  | some cfg =>
    if truthyStr cfg.url && truthyStr cfg.exchange then
      .ok ⟨cfg.url.getD "", cfg.exchange.getD "", defaultPrefetch cfg.prefetch, cfg.queues⟩
    else
      .error ⟨"amqp-wrapper: Invalid config"⟩

/-! ## Structured messages and the cycle-tolerant serializer

`publishToQueue` and `publish` pass any message with `typeof === 'object'`
through `json-stringify-safe` (required at amqp.js line 6).  That serializer
is an external dependency, so it is modelled from the spec: "a serializer
tolerant of circular references (cycles are broken rather than raised as
errors, producing a best-effort string rather than failing)".

A mutable JavaScript object graph, including a self-referential one, is
represented as a heap: a list of object nodes addressed by index, with
object-valued fields holding references.  A cycle is a reference chain that
revisits an index. -/

/-- A field value inside a heap object: a primitive, or a reference to
another object in the heap. -/
inductive HVal where
  | null
  | bool (b : Bool)
  | num (n : Int)
  | str (s : String)
  | ref (id : Nat)
  deriving DecidableEq, Repr

/-- A heap object: its named fields in order. -/
structure HNode where
  fields : List (String × HVal)
  deriving DecidableEq, Repr

/-- A heap of JavaScript objects; object identity is the index into the list. -/
abbrev Heap := List HNode

/-- The number of heap objects not on the current serialization path; the
termination measure of the serializer: descending into an unvisited object
strictly shrinks it. -/
def unseenCount (h : Heap) (seen : List Nat) : Nat :=
  ((Finset.range h.length).filter (fun j => j ∉ seen)).card

theorem unseenCount_lt (h : Heap) (seen : List Nat) (id : Nat)
    (hid : id < h.length) (hmem : id ∉ seen) :
    unseenCount h (id :: seen) < unseenCount h seen := by
  apply Finset.card_lt_card
  rw [Finset.ssubset_iff_of_subset]
  · exact ⟨id, by simp [hid, hmem], by simp⟩
  · intro j hj
    simp only [Finset.mem_filter, Finset.mem_range, List.mem_cons] at hj ⊢
    exact ⟨hj.1, fun hc => hj.2 (Or.inr hc)⟩

mutual

/-- Modelled from the spec: `json-stringify-safe`, the serializer used for
structured messages, which is required by amqp.js but external to this
repository.  Per the spec it is "tolerant of circular references (cycles are
broken rather than raised as errors, producing a best-effort string rather
than failing)": a reference already on the current path serializes as a
placeholder string instead of recursing, so the function is total. -/
def serializeVal (h : Heap) (seen : List Nat) : HVal → String
  | .null => "null"
  | .bool b => if b then "true" else "false"
  | .num n => toString n
  | .str s => "\x22" ++ s ++ "\x22"
  | .ref i =>
    if hmem : i ∈ seen then "\x22[Circular]\x22"
    else if hid : i < h.length then
      "\x7b" ++ serializeFields h (i :: seen) (h[i].fields) ++ "\x7d"
    else "null"
termination_by v => (unseenCount h seen, sizeOf v)
decreasing_by
  simp_wf
  exact Prod.Lex.left _ _ (unseenCount_lt _ _ _ ‹_› ‹_›)

/-- Serializes the fields of one heap object, comma separated. -/
def serializeFields (h : Heap) (seen : List Nat) : List (String × HVal) → String
  | [] => ""
  | [(k, v)] => "\x22" ++ k ++ "\x22:" ++ serializeVal h seen v
  | (k, v) :: rest =>
    "\x22" ++ k ++ "\x22:" ++ serializeVal h seen v ++ "," ++
      serializeFields h seen rest
termination_by l => (unseenCount h seen, sizeOf l)
decreasing_by
  all_goals simp_wf
  · exact Prod.Lex.right _ (by simp_arith)
  · exact Prod.Lex.right _ (by simp_arith)
  · exact Prod.Lex.right _ (by simp_arith)

end

/-- A message argument to publish/publishToQueue: either already a string,
or a structured value (`typeof message === 'object'`), given as a root
object id into a heap. -/
inductive Msg where
  | str (s : String)
  | structured (h : Heap) (root : Nat)
  deriving DecidableEq, Repr

/-- The payload string the publish paths compute (amqp.js lines 72-74 and
90-92): a structured message goes through the safe serializer, a string
passes through unchanged.  `new Buffer(message)` then takes this string's
bytes. -/
def payloadOf : Msg → String
  | .str s => s
  | .structured h root => serializeVal h [] (.ref root)

/-- One call handed to the transport publish primitive:
`channel.publish(exchange, routingKey, content, options, callback)`, with
`content` the string whose bytes form the buffer. -/
structure PublishCall where
  exchange : String
  routingKey : String
  content : String
  options : List (String × String)
  deriving DecidableEq, Repr

/-- lodash `_.find(collection, matchProperties)` as used at amqp.js line 75:
the first element of the publish list whose `name` equals the key, `none`
both when the list is absent (lodash tolerates an undefined collection) and
when no element matches. -/
def findPublishTarget (publishList : Option (List PublishTarget)) (name : String) :
    Option PublishTarget :=
  match publishList with
  | none => none
  | some l => l.find? (fun t => t.name == name)

/-- `publishToQueue(name, message, callback)` (amqp.js lines 71-78).  The
message is serialized if structured, the target is looked up with `_.find`,
and then `.routingKey` is read off the lookup result: when the lookup found
nothing that property read is on `undefined` and throws a TypeError, so
nothing reaches the transport.  Reading `config.queues.publish` when the
configuration has no `queues` section likewise throws.  On success the
transport publish call is returned. -/
def publishToQueue (w : Wrapper) (name : String) (m : Msg) :
    Except JsError PublishCall :=
  let message := payloadOf m
  match w.queues with
  | none => .error ⟨"TypeError: Cannot read property of undefined (reading publish)"⟩
  | some qs =>
    match findPublishTarget qs.publish name with
    | none => .error ⟨"TypeError: Cannot read property of undefined (reading routingKey)"⟩
    | some target => .ok ⟨w.exchange, target.routingKey, message, []⟩

/-- `publish(routingKey, message, options, callback)` (amqp.js lines 88-95):
identical serialization rule, with the caller's routing key and options
passed through verbatim to the transport. -/
def publish (w : Wrapper) (routingKey : String) (m : Msg)
    (options : List (String × String)) : PublishCall :=
  ⟨w.exchange, routingKey, payloadOf m, options⟩

/-! ## The consume-side delivery dispatcher

`consume(handleMessage)` (amqp.js lines 110-137) registers one callback per
delivery.  The callback builds a `done` resolution closure, decodes and
parses the payload inside a try block, and hands the parsed payload plus
`done` to the user handler; any exception escaping the try block — a JSON
syntax error or a synchronous throw from the handler — is caught and routed
to `done(error, false)`.  The model below records, per delivery, whether the
handler was invoked and the ordered list of channel acknowledgement
operations issued. -/

/-- One acknowledgement operation issued on the channel for a delivery. -/
inductive ChannelOp where
  | ack
  | nack (multiple : Bool) (requeue : Bool)
  deriving DecidableEq, Repr

/-- The arguments of one call to the `done` resolution callback:
`done(err, requeue)`, either argument possibly omitted (undefined). -/
structure DoneCall where
  err : Option JsError
  requeue : Option Bool
  deriving DecidableEq, Repr

/-- The synchronous behaviour of a user handler on one parsed payload: the
sequence of `done` calls it makes, and the exception it then throws before
returning, if any.  (A well-behaved handler has exactly one `done` call and
throws nothing; nothing in the source constrains handlers to that.) -/
structure HandlerBehavior where
  calls : List DoneCall
  throwing : Option JsError
  deriving DecidableEq, Repr

/-- The `done` closure (amqp.js lines 113-121): an undefined requeue flag
defaults to false; a truthy err yields `channel.nack(message, false,
requeue)`, otherwise `channel.ack(message)`. -/
def doneOp (call : DoneCall) : ChannelOp :=
  let requeue := call.requeue.getD false
  match call.err with
  | some _ => .nack false requeue
  | none => .ack

/-- The per-delivery dispatcher callback (amqp.js lines 112-134),
parameterized by JSON.parse — an external primitive modelled as a function
returning either the parsed value or the syntax error it throws.  Returns
whether the user handler was invoked, paired with the channel operations
issued for this delivery, in order.  A parse failure is caught and resolved
via `done(error, false)` without invoking the handler; a synchronous throw
from the handler is caught the same way, after whatever `done` calls the
handler already made.  The catch clause returns normally, so no exception
escapes to the consume loop. -/
def consumeCallback (parse : String → Except JsError JsValue)
    (handler : JsValue → HandlerBehavior) (content : String) :
    Bool × List ChannelOp :=
  match parse content with
  | .error e => (false, [doneOp ⟨some e, some false⟩])
  | .ok payload =>
    let b := handler payload
    match b.throwing with
    | some e => (true, b.calls.map doneOp ++ [doneOp ⟨some e, some false⟩])
    | none => (true, b.calls.map doneOp)

/-! ## The connect sequence

`connect(cb)` (amqp.js lines 23-62) chains four asynchronous steps through
named continuations: `amqp.connect` → `createChannel` →
`conn.createConfirmChannel` → `assertExchange` → `channel.assertExchange`
→ `assertQueues` → `async.series` over the topology tasks.  Each
continuation first checks the error of the step that invoked it and, on
error, passes it to `cb` and stops.  The transport is an oracle giving each
step's completion result; a run is the ordered list of observable events
plus how the run terminates. -/

/-- Outcome of one transport step: `none` is success, `some e` the error
the transport passes to that step's completion callback. -/
abbrev StepResult := Option JsError

/-- The completion results the transport supplies to the steps of one
connect run. -/
structure Transport where
  connectResult : StepResult
  createChannelResult : StepResult
  assertExchangeResult : StepResult
  setupPublishResult : StepResult
  setupConsumeResult : StepResult
  deriving DecidableEq, Repr

/-- Observable events of a connect run, in program order. -/
inductive Event where
  | amqpConnect (url : String)
  | createConfirmChannel
  | assertExchange (exchange : String) (kind : String)
  | setupPublishStart
  | setupPublishDone
  | setupConsumeStart
  | setupConsumeDone
  deriving DecidableEq, Repr

/-- How one call to `connect(cb)` terminates: `cb` receives success, `cb`
receives an error, or a TypeError escapes without `cb` ever being invoked. -/
inductive ConnectOutcome where
  | cbOk
  | cbError (e : JsError)
  | thrownTypeError
  deriving DecidableEq, Repr

/-- The two task closures `assertQueues` may push (amqp.js lines 50-60). -/
inductive SetupTask where
  | forPublish
  | forConsume
  deriving DecidableEq, Repr

/-- Modelled from the spec: `queueSetup.setupForPublish` and
`queueSetup.setupForConsume` (required from `./queue-setup` at amqp.js line
7; that module is not under src).  Per the spec each is an independent unit
of transport work — declaring and binding what its side of the topology
needs — that completes with success or the transport's error; its internal
declare/bind calls are abstracted into the one completion result the
transport reports for the task. -/
def runSetupTask (t : Transport) : SetupTask → List Event × StepResult
  | .forPublish =>
    match t.setupPublishResult with
    | some e => ([.setupPublishStart], some e)
    | none => ([.setupPublishStart, .setupPublishDone], none)
  | .forConsume =>
    match t.setupConsumeResult with
    | some e => ([.setupConsumeStart], some e)
    | none => ([.setupConsumeStart, .setupConsumeDone], none)

/-- `async.series(tasks, cb)` (amqp.js line 61): runs the tasks strictly one
after another, each task starting only after the previous one completed
successfully; the first error ends the sequence and is reported to `cb`,
otherwise success is reported once the last task has completed. -/
def asyncSeries (t : Transport) : List SetupTask → List Event × StepResult
  | [] => ([], none)
  | task :: rest =>
    let (ev, r) := runSetupTask t task
    match r with
    | some e => (ev, some e)
    | none =>
      let (ev2, r2) := asyncSeries t rest
      (ev ++ ev2, r2)

/-- The task list `assertQueues` builds (amqp.js lines 50-60): the publish
task when `config.queues.publish` is an array (any array, the empty one
included, is truthy), then the consume task when `config.queues.consume`
exists with a truthy name. -/
def setupTasks (qs : QueuesConfig) : List SetupTask :=
  (if qs.publish.isSome then [SetupTask.forPublish] else []) ++
    (match qs.consume with
     | some c => if c.name.isEmpty then [] else [SetupTask.forConsume]
     | none => [])

/-- `connect(cb)` (amqp.js lines 23-62): `amqp.connect(config.url, ...)`,
then `conn.createConfirmChannel`, then `channel.assertExchange(exchange,
'topic', {}, ...)`, then `assertQueues`; each continuation checks the error
of the previous step and on error hands it to `cb`, ending the run and
skipping every later step.  `assertQueues` reads `config.queues.publish`,
which throws a TypeError when the configuration has no `queues` section;
otherwise it runs the topology tasks through `async.series` and `cb`
receives that series' result. -/
def connect (w : Wrapper) (t : Transport) : List Event × ConnectOutcome :=
  match t.connectResult with
  | some e => ([.amqpConnect w.url], .cbError e)
  | none =>
    match t.createChannelResult with
    | some e => ([.amqpConnect w.url, .createConfirmChannel], .cbError e)
    | none =>
      match t.assertExchangeResult with
      | some e =>
        ([.amqpConnect w.url, .createConfirmChannel,
          .assertExchange w.exchange "topic"], .cbError e)
      | none =>
        match w.queues with
        | none =>
          ([.amqpConnect w.url, .createConfirmChannel,
            .assertExchange w.exchange "topic"], .thrownTypeError)
        | some qs =>
          let (ev, r) := asyncSeries t (setupTasks qs)
          ([.amqpConnect w.url, .createConfirmChannel,
              .assertExchange w.exchange "topic"] ++ ev,
            match r with
            | some e => .cbError e
            | none => .cbOk)

/-- The full event list of a connect run in which every step succeeds and
both topology tasks are configured. -/
def fullTrace (w : Wrapper) : List Event :=
  [.amqpConnect w.url, .createConfirmChannel, .assertExchange w.exchange "topic",
   .setupPublishStart, .setupPublishDone, .setupConsumeStart, .setupConsumeDone]

/-! ## Concrete fixtures used by witnesses and counterexamples -/

/-- A queues section with one publish target and one consume target. -/
def sampleQueues : QueuesConfig :=
  ⟨some [⟨"orders", "orders.created"⟩], some ⟨"q1", ["orders.#"]⟩⟩

/-- A wrapper as produced by the constructor from a full valid config. -/
def sampleWrapper : Wrapper := ⟨"amqp://localhost", "ex", 10, some sampleQueues⟩

/-- A transport in which every step completes successfully. -/
def allOkTransport : Transport := ⟨none, none, none, none, none⟩

/-- A transport in which the publish-side topology task fails. -/
def pubFailTransport : Transport :=
  ⟨none, none, none, some ⟨"publish setup failed"⟩, none⟩

/-- A transport in which only the consume-side topology task fails. -/
def consFailTransport : Transport :=
  ⟨none, none, none, none, some ⟨"consume setup failed"⟩⟩

/-- A configuration with url and exchange but no queues section. -/
def noQueuesConfig : Config := ⟨some "amqp://localhost", some "ex", none, none⟩

/-- The wrapper the constructor builds from `noQueuesConfig`. -/
def noQueuesWrapper : Wrapper := ⟨"amqp://localhost", "ex", 10, none⟩

/-- A one-object heap whose object holds a primitive field and a reference
back to itself: the canonical self-referential structured message. -/
def cyclicHeap : Heap := [⟨[("a", .num 1), ("self", .ref 0)]⟩]

/-- A JSON.parse stand-in that accepts every payload, yielding null. -/
def parseAlwaysNull : String → Except JsError JsValue := fun _ => .ok .null

/-- A JSON.parse stand-in that rejects every payload with a syntax error. -/
def parseRejectAll : String → Except JsError JsValue :=
  fun _ => .error ⟨"SyntaxError: Unexpected token o"⟩

/-- A handler that makes exactly the given `done` call and returns. -/
def resolveOnce (call : DoneCall) : JsValue → HandlerBehavior :=
  fun _ => ⟨[call], none⟩

/-- A handler that resolves successfully and then throws synchronously. -/
def resolveThenThrowHandler : JsValue → HandlerBehavior :=
  fun _ => ⟨[⟨none, none⟩], some ⟨"boom"⟩⟩

/-- A handler that returns without ever calling its resolution callback. -/
def neverResolveHandler : JsValue → HandlerBehavior := fun _ => ⟨[], none⟩

/-- A handler that throws synchronously instead of calling resolve. -/
def throwingHandler (e : JsError) : JsValue → HandlerBehavior :=
  fun _ => ⟨[], some e⟩

/-! ## Claims -/

/-- C1, counterexample: with the single configured target named "orders", a
publishToQueue for the unmatched name "nope" does not proceed with an
undefined routing key — reading `.routingKey` off the undefined lookup
result throws a TypeError, so the message is never handed to the transport
publish primitive. -/
theorem c1_counterexample :
    publishToQueue sampleWrapper "nope" (.str "hello") =
      .error ⟨"TypeError: Cannot read property of undefined (reading routingKey)"⟩ := by
  rfl

/-- C1 (amended): for every publishToQueue call where no configured publish
target has logical name equal to `name`, the lookup yields undefined and the
subsequent `.routingKey` property read throws a TypeError synchronously;
the transport publish primitive is never invoked for that call. -/
theorem c1_unmatched_name_throws (w : Wrapper) (qs : QueuesConfig)
    (name : String) (m : Msg) (hq : w.queues = some qs)
    (hfind : findPublishTarget qs.publish name = none) :
    publishToQueue w name m =
      .error ⟨"TypeError: Cannot read property of undefined (reading routingKey)"⟩ := by
  simp [publishToQueue, hq, hfind]

/-- Witness for C1 (amended) at the sample wrapper and an unmatched name. -/
theorem c1_unmatched_name_throws_witness :
    publishToQueue sampleWrapper "nope" (.str "x") =
      .error ⟨"TypeError: Cannot read property of undefined (reading routingKey)"⟩ :=
  c1_unmatched_name_throws sampleWrapper sampleQueues "nope" (.str "x") rfl rfl

/-- C2, counterexample: a handler that resolves and then throws
synchronously makes the dispatcher issue two channel operations for one
delivery (an ack followed by a nack), and a handler that never resolves
makes it issue none — so a delivery is not always resolved exactly once. -/
theorem c2_counterexample :
    (consumeCallback parseAlwaysNull resolveThenThrowHandler "m").2 =
        [ChannelOp.ack, ChannelOp.nack false false] ∧
      (consumeCallback parseAlwaysNull neverResolveHandler "m").2 = [] :=
  ⟨rfl, rfl⟩

/-- C2 (amended): for a delivery whose payload parses, the dispatcher issues
one channel operation per `done` call the handler makes, plus one more when
the handler throws synchronously after returning from those calls.  Hence
the delivery is resolved exactly once when the handler either calls resolve
exactly once without throwing, or throws without resolving; but a handler
that resolves and then throws double-resolves, and one that never resolves
leaves the delivery unresolved — nothing in the dispatcher enforces
exactly-once resolution. -/
theorem c2_resolution_count (parse : String → Except JsError JsValue)
    (handler : JsValue → HandlerBehavior) (content : String) (v : JsValue)
    (hp : parse content = .ok v) :
    (consumeCallback parse handler content).2.length =
      (handler v).calls.length +
        (if (handler v).throwing.isSome then 1 else 0) := by
  simp only [consumeCallback, hp]
  cases h : (handler v).throwing <;> simp [h]

/-- Witness for C2 (amended) at a concrete parse, handler and delivery. -/
theorem c2_resolution_count_witness :
    (consumeCallback parseAlwaysNull resolveThenThrowHandler "m").2.length =
      (resolveThenThrowHandler JsValue.null).calls.length +
        (if (resolveThenThrowHandler JsValue.null).throwing.isSome then 1 else 0) :=
  c2_resolution_count parseAlwaysNull resolveThenThrowHandler "m" JsValue.null rfl

/-- C4: for every delivery whose payload parses successfully, the handler's
resolution maps to channel operations as: resolve(null) causes exactly an
ack; resolve(err) with the requeue flag omitted causes a nack with
requeue=false; resolve(err, true) causes a nack with requeue=true. -/
theorem c4_resolution_mapping (parse : String → Except JsError JsValue)
    (content : String) (v : JsValue) (e : JsError)
    (hp : parse content = .ok v) :
    (consumeCallback parse (resolveOnce ⟨none, none⟩) content).2 =
        [ChannelOp.ack] ∧
      (consumeCallback parse (resolveOnce ⟨some e, none⟩) content).2 =
        [ChannelOp.nack false false] ∧
      (consumeCallback parse (resolveOnce ⟨some e, some true⟩) content).2 =
        [ChannelOp.nack false true] := by
  simp [consumeCallback, hp, resolveOnce, doneOp]

/-- Witness for C4 at a concrete parse, delivery and error. -/
theorem c4_resolution_mapping_witness :
    (consumeCallback parseAlwaysNull (resolveOnce ⟨none, none⟩) "m").2 =
        [ChannelOp.ack] ∧
      (consumeCallback parseAlwaysNull
          (resolveOnce ⟨some ⟨"handler error"⟩, none⟩) "m").2 =
        [ChannelOp.nack false false] ∧
      (consumeCallback parseAlwaysNull
          (resolveOnce ⟨some ⟨"handler error"⟩, some true⟩) "m").2 =
        [ChannelOp.nack false true] :=
  c4_resolution_mapping parseAlwaysNull "m" JsValue.null ⟨"handler error"⟩ rfl

/-- C5: for every inbound delivery whose payload fails to parse as JSON, the
dispatcher nacks that delivery once with requeue=false and the user handler
is never invoked (the invoked flag of the run is false). -/
theorem c5_invalid_json_nack (parse : String → Except JsError JsValue)
    (handler : JsValue → HandlerBehavior) (content : String) (e : JsError)
    (hp : parse content = .error e) :
    consumeCallback parse handler content =
      (false, [ChannelOp.nack false false]) := by
  simp [consumeCallback, hp, doneOp]

/-- Witness for C5 at a rejecting parse and a concrete delivery. -/
theorem c5_invalid_json_nack_witness :
    consumeCallback parseRejectAll (resolveOnce ⟨none, none⟩) "not-json" =
      (false, [ChannelOp.nack false false]) :=
  c5_invalid_json_nack parseRejectAll (resolveOnce ⟨none, none⟩) "not-json"
    ⟨"SyntaxError: Unexpected token o"⟩ rfl

/-- C6: for every delivery whose payload parses successfully but whose
handler throws synchronously instead of calling resolve, the exception is
caught by the dispatcher — the callback returns normally, so the consume
loop is not halted — and the delivery is nacked once with requeue=false,
the handler having been invoked. -/
theorem c6_handler_throw_nack (parse : String → Except JsError JsValue)
    (content : String) (v : JsValue) (e : JsError)
    (hp : parse content = .ok v) :
    consumeCallback parse (throwingHandler e) content =
      (true, [ChannelOp.nack false false]) := by
  simp [consumeCallback, hp, throwingHandler, doneOp]

/-- Witness for C6 at a concrete parse, delivery and thrown error. -/
theorem c6_handler_throw_nack_witness :
    consumeCallback parseAlwaysNull (throwingHandler ⟨"boom"⟩) "m" =
      (true, [ChannelOp.nack false false]) :=
  c6_handler_throw_nack parseAlwaysNull "m" JsValue.null ⟨"boom"⟩ rfl

/-- C7: for every configuration missing the `url` field or the `exchange`
field (or missing entirely), construction fails synchronously with the
configuration error.  The constructor contains no transport call at all —
`mkWrapper` either throws this error or returns the captured configuration,
so no transport operation can precede the failure. -/
theorem c7_invalid_config_throws (c : Option Config)
    (h : c = none ∨ ∃ cfg, c = some cfg ∧
      (truthyStr cfg.url = false ∨ truthyStr cfg.exchange = false)) :
    mkWrapper c = .error ⟨"amqp-wrapper: Invalid config"⟩ := by
  rcases h with rfl | ⟨cfg, rfl, h⟩
  · rfl
  · rcases h with h | h <;> simp [mkWrapper, h]

/-- Witness for C7 at a configuration lacking a url. -/
theorem c7_invalid_config_throws_witness :
    mkWrapper (some ⟨none, some "ex", none, none⟩) =
      .error ⟨"amqp-wrapper: Invalid config"⟩ :=
  c7_invalid_config_throws (some ⟨none, some "ex", none, none⟩)
    (Or.inr ⟨⟨none, some "ex", none, none⟩, rfl, Or.inl rfl⟩)

/-- C3: for every configuration with both a publish list and a consume
target, connect performs open connection → create confirm channel → declare
topic exchange → topology setup in that order, each step gated on success of
the previous: the callback receives success iff every transport step
succeeds; when a step fails, its error is the one passed to the callback and
every later step is skipped (the trace ends at the failing step); and on
success the trace is the full one, in which both topology tasks have
completed before the callback fires. -/
theorem c3_connect_sequencing (w : Wrapper) (qs : QueuesConfig)
    (pubs : List PublishTarget) (c : ConsumeTarget) (t : Transport)
    (hq : w.queues = some qs) (hpub : qs.publish = some pubs)
    (hcons : qs.consume = some c) (hname : c.name.isEmpty = false) :
    ((connect w t).2 = .cbOk ↔
      t.connectResult = none ∧ t.createChannelResult = none ∧
        t.assertExchangeResult = none ∧ t.setupPublishResult = none ∧
        t.setupConsumeResult = none) ∧
    (∀ e, t.connectResult = some e →
      connect w t = ([.amqpConnect w.url], .cbError e)) ∧
    (∀ e, t.connectResult = none → t.createChannelResult = some e →
      connect w t = ([.amqpConnect w.url, .createConfirmChannel], .cbError e)) ∧
    (∀ e, t.connectResult = none → t.createChannelResult = none →
      t.assertExchangeResult = some e →
      connect w t = ([.amqpConnect w.url, .createConfirmChannel,
        .assertExchange w.exchange "topic"], .cbError e)) ∧
    (∀ e, t.connectResult = none → t.createChannelResult = none →
      t.assertExchangeResult = none → t.setupPublishResult = some e →
      connect w t = ([.amqpConnect w.url, .createConfirmChannel,
        .assertExchange w.exchange "topic", .setupPublishStart], .cbError e)) ∧
    (∀ e, t.connectResult = none → t.createChannelResult = none →
      t.assertExchangeResult = none → t.setupPublishResult = none →
      t.setupConsumeResult = some e →
      connect w t = ([.amqpConnect w.url, .createConfirmChannel,
        .assertExchange w.exchange "topic", .setupPublishStart,
        .setupPublishDone, .setupConsumeStart], .cbError e)) ∧
    ((connect w t).2 = .cbOk → (connect w t).1 = fullTrace w) := by
  rcases t with ⟨tc, tch, tex, tsp, tsc⟩
  cases tc <;> cases tch <;> cases tex <;> cases tsp <;> cases tsc <;>
    simp_all [connect, setupTasks, asyncSeries, runSetupTask, fullTrace]

/-- Witness for C3: at the sample configuration and the all-success
transport, the callback receives success and the trace is the full one. -/
theorem c3_connect_sequencing_witness :
    (connect sampleWrapper allOkTransport).2 = .cbOk ∧
      (connect sampleWrapper allOkTransport).1 = fullTrace sampleWrapper := by
  have h := c3_connect_sequencing sampleWrapper sampleQueues
    [⟨"orders", "orders.created"⟩] ⟨"q1", ["orders.#"]⟩ allOkTransport
    rfl rfl rfl rfl
  have hok : (connect sampleWrapper allOkTransport).2 = .cbOk :=
    h.1.mpr ⟨rfl, rfl, rfl, rfl, rfl⟩
  exact ⟨hok, h.2.2.2.2.2.2 hok⟩

/-- C8: for every publish or publishToQueue call whose message is structured
(typeof object), on any wrapper whatsoever, the cycle-tolerant serializer —
a total function, so serialization completes without raising even on a
self-referential value — produces the payload string: every `publish` call
hands exactly that string to the transport publish primitive; every
`publishToQueue` call that reaches the transport at all hands exactly that
string (and whenever the target lookup succeeds it does reach the
transport, with the target's routing key); and on the concrete
self-referential heap the produced JSON string has the cycle elided as a
placeholder. -/
theorem c8_safe_serialization (w : Wrapper) (routingKey name : String)
    (h : Heap) (root : Nat) (options : List (String × String)) :
    publish w routingKey (.structured h root) options =
        ⟨w.exchange, routingKey, serializeVal h [] (.ref root), options⟩ ∧
      (∀ pc, publishToQueue w name (.structured h root) = .ok pc →
        pc.content = serializeVal h [] (.ref root)) ∧
      (∀ qs target, w.queues = some qs →
        findPublishTarget qs.publish name = some target →
        publishToQueue w name (.structured h root) =
          .ok ⟨w.exchange, target.routingKey, serializeVal h [] (.ref root), []⟩) ∧
      serializeVal cyclicHeap [] (.ref 0) =
        "\x7b\x22a\x22:1,\x22self\x22:\x22[Circular]\x22\x7d" := by
  refine ⟨rfl, ?_, ?_, ?_⟩
  · intro pc hpc
    cases hq : w.queues with
    | none => simp [publishToQueue, hq] at hpc
    | some qs =>
      cases hf : findPublishTarget qs.publish name with
      | none => simp [publishToQueue, hq, hf] at hpc
      | some target =>
        simp [publishToQueue, hq, hf, payloadOf] at hpc
        simp [← hpc]
  · intro qs target hq hf
    simp [publishToQueue, hq, hf, payloadOf]
  · simp [serializeVal, serializeFields, cyclicHeap]
    rfl

/-- Witness for C8 at the sample wrapper, a matched target and the
self-referential heap. -/
theorem c8_safe_serialization_witness :
    publish sampleWrapper "some.key" (.structured cyclicHeap 0) [] =
        ⟨"ex", "some.key", serializeVal cyclicHeap [] (.ref 0), []⟩ ∧
      publishToQueue sampleWrapper "orders" (.structured cyclicHeap 0) =
        .ok ⟨"ex", "orders.created", serializeVal cyclicHeap [] (.ref 0), []⟩ ∧
      serializeVal cyclicHeap [] (.ref 0) =
        "\x7b\x22a\x22:1,\x22self\x22:\x22[Circular]\x22\x7d" := by
  have h := c8_safe_serialization sampleWrapper "some.key" "orders" cyclicHeap 0 []
  exact ⟨h.1, h.2.2.1 sampleQueues ⟨"orders", "orders.created"⟩ rfl rfl, h.2.2.2⟩

/-- C9, counterexample: the topology tasks do not run concurrently.  In the
all-success run of the sample configuration the consume-side task starts
only after the publish-side task has completed, and when the publish-side
task fails the consume-side task never starts at all — async.series runs
them strictly one after the other. -/
theorem c9_counterexample :
    ((connect sampleWrapper allOkTransport).1.indexOf Event.setupPublishDone <
        (connect sampleWrapper allOkTransport).1.indexOf Event.setupConsumeStart) ∧
      Event.setupConsumeStart ∉ (connect sampleWrapper pubFailTransport).1 := by
  decide

/-- C9 (amended): when both a publish list and a consume target are
configured and connection, channel creation and exchange declaration
succeed, the two topology setup tasks run sequentially, not concurrently:
the publish-side task runs first and the consume-side task starts only
after it completes successfully — on publish-side failure the run ends
with that error and the consume-side task never starts, while on
publish-side success the consume-side task does start (and its own failure
ends the run with its error) — and neither task starts before the exchange
declaration has completed. -/
theorem c9_setup_tasks_sequential (w : Wrapper) (qs : QueuesConfig)
    (pubs : List PublishTarget) (c : ConsumeTarget) (t : Transport)
    (hq : w.queues = some qs) (hpub : qs.publish = some pubs)
    (hcons : qs.consume = some c) (hname : c.name.isEmpty = false)
    (h1 : t.connectResult = none) (h2 : t.createChannelResult = none)
    (h3 : t.assertExchangeResult = none) :
    (t.setupPublishResult = none → t.setupConsumeResult = none →
        connect w t = (fullTrace w, .cbOk)) ∧
      (∀ e, t.setupPublishResult = some e →
        connect w t = ([.amqpConnect w.url, .createConfirmChannel,
          .assertExchange w.exchange "topic", .setupPublishStart],
          .cbError e)) ∧
      (∀ e, t.setupPublishResult = none → t.setupConsumeResult = some e →
        connect w t = ([.amqpConnect w.url, .createConfirmChannel,
          .assertExchange w.exchange "topic", .setupPublishStart,
          .setupPublishDone, .setupConsumeStart], .cbError e)) := by
  rcases t with ⟨tc, tch, tex, tsp, tsc⟩
  cases tsp <;> cases tsc <;>
    simp_all [connect, setupTasks, asyncSeries, runSetupTask, fullTrace]

/-- Witness for C9 (amended): at the sample configuration, the all-success
run produces the full sequential trace, and the run whose consume-side task
fails still starts that task only after the publish-side task completed. -/
theorem c9_setup_tasks_sequential_witness :
    connect sampleWrapper allOkTransport = (fullTrace sampleWrapper, .cbOk) ∧
      connect sampleWrapper consFailTransport =
        ([.amqpConnect "amqp://localhost", .createConfirmChannel,
          .assertExchange "ex" "topic", .setupPublishStart, .setupPublishDone,
          .setupConsumeStart], .cbError ⟨"consume setup failed"⟩) :=
  ⟨(c9_setup_tasks_sequential sampleWrapper sampleQueues
      [⟨"orders", "orders.created"⟩] ⟨"q1", ["orders.#"]⟩ allOkTransport
      rfl rfl rfl rfl rfl rfl rfl).1 rfl rfl,
    (c9_setup_tasks_sequential sampleWrapper sampleQueues
      [⟨"orders", "orders.created"⟩] ⟨"q1", ["orders.#"]⟩ consFailTransport
      rfl rfl rfl rfl rfl rfl rfl).2.2 ⟨"consume setup failed"⟩ rfl rfl⟩

/-- C10: for every configuration that has a (truthy) url and exchange but
no queues section, construction succeeds — yielding the wrapper with the
prefetch default applied and no queues — and every connect in which the
transport completes connection, channel creation and exchange declaration
successfully then ends with an uncaught TypeError (assertQueues reads
`config.queues.publish` off an undefined `config.queues`), after the
exchange has been declared: the outcome is the thrown TypeError, not an
error passed to connect's callback and not construction-time rejection. -/
theorem c10_missing_queues_typeerror (cfg : Config) (u ex : String)
    (t : Transport) (hu : cfg.url = some u) (hx : cfg.exchange = some ex)
    (hut : u.isEmpty = false) (hxt : ex.isEmpty = false)
    (hq : cfg.queues = none)
    (h1 : t.connectResult = none) (h2 : t.createChannelResult = none)
    (h3 : t.assertExchangeResult = none) :
    mkWrapper (some cfg) = .ok ⟨u, ex, defaultPrefetch cfg.prefetch, none⟩ ∧
      connect ⟨u, ex, defaultPrefetch cfg.prefetch, none⟩ t =
        ([.amqpConnect u, .createConfirmChannel, .assertExchange ex "topic"],
          .thrownTypeError) := by
  constructor
  · simp [mkWrapper, hu, hx, hq, truthyStr, hut, hxt]
  · rcases t with ⟨tc, tch, tex, tsp, tsc⟩
    simp_all [connect]

/-- Witness for C10 at the concrete queues-less configuration and the
all-success transport. -/
theorem c10_missing_queues_typeerror_witness :
    mkWrapper (some noQueuesConfig) = .ok noQueuesWrapper ∧
      connect noQueuesWrapper allOkTransport =
        ([.amqpConnect "amqp://localhost", .createConfirmChannel,
          .assertExchange "ex" "topic"], .thrownTypeError) :=
  c10_missing_queues_typeerror noQueuesConfig "amqp://localhost" "ex"
    allOkTransport rfl rfl rfl rfl rfl rfl rfl rfl

end AmqpWrapper
